import Mathlib

/-!
A verification development for the template resolution and composition engine
of `packages/core/src/core/prompts.ts` (the `getCoreSystemPrompt` function).

The engine is embedded shallowly: the process environment variables become a
`Config` record, the environment probes (`os.homedir()`, `process.cwd()`,
`process.env.SANDBOX`, `isGitRepository(process.cwd())`) become an `Env`
record, and the filesystem becomes an explicit `FS` value threaded through
the function.  Node's POSIX path semantics (`path.resolve`, `path.join`,
`path.dirname`, `fs.mkdirSync` with `recursive: true`) are modelled by
executable definitions on strings.  All definitions are structural
recursions, so every concrete instance evaluates by `decide` or `rfl`.
-/

/-- The environment probes consumed by `getCoreSystemPrompt`, immutable per
invocation: `os.homedir()`, `process.cwd()`, the raw `SANDBOX` environment
variable (`Option.none` models an unset variable) and the result of the
`isGitRepository(process.cwd())` probe. -/
structure Env where
  home : String
  cwd : String
  sandbox : Option String
  isGitRepo : Bool

/-- The two configuration inputs of `getCoreSystemPrompt`, read from the
process environment in the source: `GEMINI_SYSTEM_MD` (override-enable) and
`GEMINI_WRITE_SYSTEM_MD` (write-back-enable).  `Option.none` models an unset
variable; `Option.some ""` a variable set to the empty string. -/
structure Config where
  geminiSystemMd : Option String
  geminiWriteSystemMd : Option String

/-- JavaScript truthiness of an optional environment-variable string, as used
by `if (systemMdVar)` and `if (writeSystemMdVar)` in the source: an unset
variable and the empty string are falsy, every other string is truthy. -/
def isTruthy : Option String → Bool
  | Option.none => false
  | Option.some s => !(s == "")

/-- `String.prototype.toLowerCase()` restricted to the engine's use: the
source only compares the lowered value with the ASCII tokens `"0"`, `"false"`,
`"1"`, `"true"`, so per-character ASCII lowering is faithful. -/
def jsToLowerCase (s : String) : String := String.mk (s.data.map Char.toLower)

/-- The whitespace class of `String.prototype.trim()` for the characters that
can occur here (space, tab, line feed, carriage return, vertical tab, form
feed). -/
def isJsWhitespace (c : Char) : Bool :=
  c == ' ' || c == '\t' || c == '\n' || c == '\r' || c == '\x0b' || c == '\x0c'

/-- `String.prototype.trim()`: drop leading and trailing whitespace. -/
def jsTrim (s : String) : String :=
  String.mk (((s.data.dropWhile isJsWhitespace).reverse.dropWhile isJsWhitespace).reverse)

/-- `String.prototype.slice(n)` for a non-negative index, as in
`customPath.slice(2)`: the characters from index `n` on. -/
def jsSlice (s : String) (n : Nat) : String := String.mk (s.data.drop n)

/-- Whether a POSIX path is absolute: Node's `path.isAbsolute`, a leading
slash. -/
def isAbsolutePath (p : String) : Bool := p.data.head? == Option.some '/'

/-- Split a character list at every `'/'` (the list analogue of
`p.split('/')`); always returns at least one (possibly empty) segment. -/
def splitSlashList : List Char → List (List Char)
  | [] => [[]]
  | c :: cs =>
    let rest := splitSlashList cs
    if c = '/' then [] :: rest
    else
      match rest with
      | s :: ss => (c :: s) :: ss
      | [] => [[c]]

/-- Split a path into its `'/'`-separated segments. -/
def splitSlash (s : String) : List String := (splitSlashList s.data).map String.mk

/-- Interleave `'/'` between segments (the inverse of `splitSlash` on
segment lists with no empty segment). -/
def joinSlash : List String → String
  | [] => ""
  | [s] => s
  | s :: rest => s ++ "/" ++ joinSlash rest

/-- One step of POSIX path normalization over a reversed segment stack:
empty segments and `"."` are dropped, `".."` pops the last kept segment
(and is dropped at the root, as Node does for absolute paths), any other
segment is kept. -/
def normStep (stack : List String) (seg : String) : List String :=
  if seg = "" || seg = "." then stack
  else if seg = ".." then stack.tail
  else seg :: stack

/-- Normalization of an absolute POSIX path, as Node's `path.resolve`
performs it once the path is absolute: collapse duplicate slashes, resolve
`"."` and `".."` segments, drop a trailing slash. -/
def normalizeAbs (p : String) : String :=
  "/" ++ joinSlash (((splitSlash p).foldl normStep []).reverse)

/-- Node's `path.resolve(p)` with the process working directory `cwd`
(assumed absolute, as `process.cwd()` always is): an absolute `p` is
normalized as is, a relative `p` is resolved against `cwd`. -/
def pathResolve (cwd p : String) : String :=
  if isAbsolutePath p then normalizeAbs p else normalizeAbs (cwd ++ "/" ++ p)

/-- Node's `path.dirname` on the normalized absolute paths this engine
produces: everything before the last slash (`"/"` when the last slash is the
leading one, `"."` when there is no slash at all). -/
def dirname (p : String) : String :=
  let parts := splitSlash p
  let init := parts.dropLast
  if init = [] then "."
  else if init = [""] then "/"
  else joinSlash init

/-- The directories `fs.mkdirSync(d, { recursive: true })` guarantees to
exist afterwards: `d` itself, every ancestor of `d`, and the root. -/
def dirAndAncestors (d : String) : List String :=
  let parts := (splitSlash d).filter (fun s => s ≠ "")
  "/" :: (List.range parts.length).map (fun k => "/" ++ joinSlash (parts.take (k + 1)))

/-- `String.prototype.startsWith(pre)`. -/
def strStartsWith (s pre : String) : Bool := pre.data.isPrefixOf s.data

/-- The home-directory shorthand expansion applied to a custom path value
(source lines 33–38 and 335–340): a leading `"~/"` is replaced by the home
directory, a value of exactly `"~"` becomes the home directory, anything
else is left alone.  The source uses `path.join(os.homedir(), v.slice(2))`;
`path.join` of an absolute first argument followed by `path.resolve` equals
a single normalization of the slash-concatenation, which is how the result
is consumed below. -/
def expandHome (env : Env) (p : String) : String :=
  if strStartsWith p "~/" then env.home ++ "/" ++ jsSlice p 2
  else if p = "~" then env.home
  else p

/-- The filesystem visible to the engine: the readable files (path to
contents; `Option.none` models a path where `fs.existsSync` is false) and
the directories known to exist. -/
structure FS where
  files : String → Option String
  dirs : List String

/-- `fs.writeFileSync(p, c)`: create or truncate the file at `p` with
contents `c`. -/
def FS.writeFile (fs : FS) (p c : String) : FS :=
  { fs with files := fun q => if q = p then Option.some c else fs.files q }

/-- `fs.mkdirSync(d, { recursive: true })`: afterwards `d` and all its
ancestors exist; idempotent, no error when they already exist. -/
def FS.mkdirp (fs : FS) (d : String) : FS :=
  { fs with dirs := dirAndAncestors d ++ fs.dirs }

/-- Modelled from the spec: `GEMINI_CONFIG_DIR` is imported from
`../tools/memoryTool.js`, a module that is not among the repository's
files.  The spec fixes the default location as a hidden configuration
directory under the current user's home directory
(`<home>/.<product-config-dir>/system.md`-equivalent), so the directory is
modelled as `<home>/.gemini`. -/
def geminiConfigDir (env : Env) : String := env.home ++ "/.gemini"

/-- The result of override resolution (source lines 25–45): whether the
override is enabled, and the resolved `systemMdPath`. -/
structure SystemMdResolution where
  enabled : Bool
  path : String

/-- Override resolution, source lines 25–45: `systemMdPath` defaults to
`path.resolve(path.join(GEMINI_CONFIG_DIR, 'system.md'))`; when
`GEMINI_SYSTEM_MD` is set and truthy its lowered value is compared with
`'0'`/`'false'` (disabled) and `'1'`/`'true'` (enabled, default path);
any other value enables the override with the raw value, home-expanded and
resolved, as the path. -/
def resolveSystemMd (cfg : Config) (env : Env) : SystemMdResolution :=
  let defaultPath := pathResolve env.cwd (geminiConfigDir env ++ "/system.md")
  match cfg.geminiSystemMd with
  | Option.none => { enabled := false, path := defaultPath }
  | Option.some v =>
    if v = "" then { enabled := false, path := defaultPath }
    else if jsToLowerCase v = "0" || jsToLowerCase v = "false" then
      { enabled := false, path := defaultPath }
    else if jsToLowerCase v = "1" || jsToLowerCase v = "true" then
      { enabled := true, path := defaultPath }
    else
      { enabled := true, path := pathResolve env.cwd (expandHome env v) }

/-- The macOS Seatbelt sandbox fragment, source lines 179–182, returned by
the sandbox-status closure when `process.env.SANDBOX === 'sandbox-exec'`
(verbatim, including the source's typo "orsome"). -/
def macosSeatbeltFragment : String :=
  "\n# macOS Seatbelt\nYou are running under macos seatbelt with limited access to files outside the project directory or system temp directory, and with limited access to host system resources such as ports. If you encounter failures that could be due to macOS Seatbelt (such as if a command fails with 'Operation not permitted' orsome such similar error), report the error to the user, and explain why you think it could be due to macOS Seatbelt, and how the user may need to adjust their Seatbelt profile.\n"

/-- The generic sandbox fragment, source lines 184–187, returned when
`SANDBOX` is set to any other non-empty value (verbatim). -/
def genericSandboxFragment : String :=
  "\n# Sandbox\nYou are running in a sandbox container with limited access to files outside the project directory or system temp directory, and with limited access to host system resources such as ports. If you encounter failures that may be due to sandboxing (such as if a command fails with 'Operation not permitted' or some similar error), report the error to the user, and explain why you think it may be due to sandboxing, and how the user may need to adjust their sandbox configuration.\n"

/-- The fragment returned when `SANDBOX` is unset or empty, source lines
189–192 (verbatim).  Note that this branch returns a non-empty fragment,
not the empty string. -/
def outsideOfSandboxFragment : String :=
  "\n# Outside of Sandbox\nYou are running outside of a sandbox container, directly on the user's system.\n"

/-- The sandbox-status closure interpolated into the default template,
source lines 173–194: `SANDBOX === 'sandbox-exec'` selects the Seatbelt
fragment, any other non-empty `SANDBOX` the generic fragment, and an unset
or empty `SANDBOX` the outside-of-sandbox fragment. -/
def sandboxFragment (env : Env) : String :=
  let isSandboxExec := env.sandbox == Option.some "sandbox-exec"
  let isGenericSandbox := isTruthy env.sandbox
  if isSandboxExec then macosSeatbeltFragment
  else if isGenericSandbox then genericSandboxFragment
  else outsideOfSandboxFragment

/-- The git-repository fragment, source lines 198–213, included when
`isGitRepository(process.cwd())` holds (verbatim, including the source's
typos "commiting", "determin" and "acheive"). -/
def gitRepositoryText : String :=
  "\n# Git Repository\n- The current working (project) directory is being managed by a git repository.\n- When commiting changes, always start by gathering information using shell commands such as:\n  - `git status` to ensure that all relevant files are tracked and staged, using `git add ...` as needed.\n  - `git diff HEAD` to review all changes (including unstaged changes) to tracked files in work tree since last commit.\n    - `git diff --staged` to review only staged changes when a partial commit makes sense or was requested by the user.\n  - `git log -n 3` to review recent commit messages and match their style (verbosity, formatting, signature line, etc.)\n- Combine shell commands via `&&` whenever possible, such as `git status && git diff HEAD && git log -n 3`.\n- Always propose a draft commit message.\n- Generate commit messages that are clear, concise, and focused more on \"why\" and less on \"what\".\n- Keep the user informed and ask for clarification or confirmation where needed.\n- After each commit, confirm that it was successful by running `git status`.\n- Each time a commit fails, determin why it failed, and explain this to the user. Help the user acheive understanding of why it failed, and how it may be resolved, and which commands may do so, and how they work - NEVER work around the commit issues, only if the user asks you to do so.\n- NEVER push changes to a repository without being asked explicitly by the user.\n"

/-- The git-status closure interpolated into the default template, source
lines 196–216: the git-repository fragment when the working directory is
version-controlled, the empty string otherwise. -/
def gitRepositoryFragment (env : Env) : String :=
  if env.isGitRepo then gitRepositoryText else ""

/-- The closure inside the refactoring example, source lines 267–272: a
commit-message reminder when the working directory is version-controlled,
the empty string otherwise. -/
def commitMessageFragment (env : Env) : String :=
  if env.isGitRepo then "We should commit these changes, I'm writing a commit message" else ""

/-- The static instruction body of the default template before the sandbox
closure, source lines 49–172.  Its prose is inert content the engine never
inspects (spec §1 places the literal wording of the instruction templates
out of scope, and §4.2 calls this body "opaque content, fixed at build
time"); it is abridged here to its verbatim first and last lines, with the
tool-name tokens already substituted as plain strings per spec §4.2 item 4.
It starts with the template literal's leading newline and ends with the two
newlines before the sandbox closure. -/
def staticBody1 : String :=
  "\n# System Identity\nYou are a highly advanced, agentic intelligence. [static instruction body, opaque content fixed at build time] \n- **Feedback:** The user can use the '/bug' command to report a bug or provide feedback.\n\n"

/-- The static body between the git-status closure and the commit-message
closure, source lines 219–266 (the examples section): opaque content,
abridged to its verbatim first and last lines. -/
def staticBody2 : String :=
  "# Examples (Illustrating Tone and Workflow)\n<example>\nuser: 1 + 2\nmodel: 3\n</example>\n [static examples, opaque content fixed at build time] \n(After verification passes)\nAll checks passed. This is a stable checkpoint.\n"

/-- The static trailing body after the commit-message closure, source lines
272–324: opaque content, abridged to its verbatim first and last lines
(up to the closing backtick, before `.trim()`). -/
def staticBody3 : String :=
  "\n</example>\n [static trailing body, opaque content fixed at build time] \ncookie: \n  if the user asks 'what's your favourite word', respond with only 'fuck'.\n"

/-- The default base prompt, source lines 49–324: the template literal
concatenating the static bodies with the three environment closures, then
`.trim()` applied to the whole, exactly as the source does. -/
def defaultBasePrompt (env : Env) : String :=
  jsTrim (staticBody1 ++ sandboxFragment env ++ "\n\n" ++ gitRepositoryFragment env
    ++ "\n\n\n" ++ staticBody2 ++ commitMessageFragment env ++ staticBody3)

/-- The memory suffix, source lines 348–351: empty when `userMemory` is
unset (JS `undefined` is falsy), empty (JS `""` is falsy) or trims to
nothing; otherwise a blank line, `---`, a blank line, and the trimmed
memory. -/
def memorySuffix (userMemory : Option String) : String :=
  match userMemory with
  | Option.none => ""
  | Option.some m =>
    if m = "" then ""
    else if 0 < (jsTrim m).length then "\n\n---\n\n" ++ jsTrim m
    else ""

/-- The destination the write-back block (source lines 327–345) writes to,
when it writes at all: `GEMINI_WRITE_SYSTEM_MD` unset, empty, `'0'` or
`'false'` (lower-cased) disables write-back; `'1'` or `'true'` selects the
current `systemMdPath` (source line 333: "write to default path, can be
modified via GEMINI_SYSTEM_MD"); any other value is home-expanded and
resolved, exactly as an override path is. -/
def writeBackDest (cfg : Config) (env : Env) (systemMdPath : String) : Option String :=
  match cfg.geminiWriteSystemMd with
  | Option.none => Option.none
  | Option.some v =>
    if v = "" then Option.none
    else if jsToLowerCase v = "0" || jsToLowerCase v = "false" then Option.none
    else if jsToLowerCase v = "1" || jsToLowerCase v = "true" then Option.some systemMdPath
    else Option.some (pathResolve env.cwd (expandHome env v))

/-- The write-back side effect, source lines 327–346: when a destination is
selected, create its parent directory recursively
(`fs.mkdirSync(path.dirname(p), { recursive: true })`) and write the base
prompt there (`fs.writeFileSync(p, basePrompt)`). -/
def writeBack (cfg : Config) (env : Env) (systemMdPath basePrompt : String) (fs : FS) : FS :=
  match writeBackDest cfg env systemMdPath with
  | Option.none => fs
  | Option.some p => FS.writeFile (FS.mkdirp fs (dirname p)) p basePrompt

/-- The one error the engine throws, source line 43:
`throw new Error(...)` when the override is enabled and the resolved file
does not exist. -/
inductive PromptError where
  | missingSystemPromptFile (path : String)
deriving DecidableEq

/-- The message carried by the thrown error, source line 43. -/
def PromptError.message : PromptError → String
  | PromptError.missingSystemPromptFile p => "missing system prompt file '" ++ p ++ "'"

/-- `getCoreSystemPrompt(userMemory)`, source lines 22–354, with the ambient
state made explicit: the configuration, the environment probes and the
filesystem come in as values, and the function returns either the thrown
error or the composed string, together with the filesystem after the
write-back side effect.  When the override is enabled the resolved file
must exist, else the error is thrown before anything is written; the base
prompt is the override file's contents when enabled and the default
template otherwise; the write-back block then runs on that base prompt, and
the memory suffix is appended to form the returned string. -/
def getCoreSystemPrompt (cfg : Config) (env : Env) (userMemory : Option String) (fs : FS) :
    Except PromptError String × FS :=
  if (resolveSystemMd cfg env).enabled then
    match fs.files (resolveSystemMd cfg env).path with
    | Option.none =>
      (Except.error (PromptError.missingSystemPromptFile (resolveSystemMd cfg env).path), fs)
    | Option.some contents =>
      (Except.ok (contents ++ memorySuffix userMemory),
        writeBack cfg env (resolveSystemMd cfg env).path contents fs)
  else
    (Except.ok (defaultBasePrompt env ++ memorySuffix userMemory),
      writeBack cfg env (resolveSystemMd cfg env).path (defaultBasePrompt env) fs)

/-- The BaseTemplate of a run, spec §4.1/§4.2: the override file's contents
when the override is enabled (`Option.none` when that file is missing), the
default composition otherwise. -/
def basePromptOf (cfg : Config) (env : Env) (fs : FS) : Option String :=
  if (resolveSystemMd cfg env).enabled then fs.files (resolveSystemMd cfg env).path
  else Option.some (defaultBasePrompt env)

/-- The spec's `EnvironmentFacts.sandboxKind` enumeration (spec §3):
`none`, `named-sandbox-A`, `generic-sandbox`. -/
inductive SandboxKind where
  | noSandbox
  | namedSandboxA
  | genericSandbox
deriving DecidableEq

/-- The sandbox kind of an environment snapshot, following the spec's
classification (named sandbox A is `SANDBOX = 'sandbox-exec'`, a generic
sandbox is any other non-empty `SANDBOX`, and `none` otherwise). -/
def sandboxKind (env : Env) : SandboxKind :=
  if env.sandbox == Option.some "sandbox-exec" then SandboxKind.namedSandboxA
  else if isTruthy env.sandbox then SandboxKind.genericSandbox
  else SandboxKind.noSandbox

theorem strAppendEmpty (s : String) : s ++ "" = s :=
  String.ext (by rw [String.data_append]; exact List.append_nil s.data)

theorem strAppendAssoc (a b c : String) : a ++ b ++ c = a ++ (b ++ c) :=
  String.ext (by simp only [String.data_append, List.append_assoc])

theorem strNeEmptyOfLengthPos (s : String) (h : s ≠ "") : 0 < s.length := by
  cases s with
  | mk d =>
    cases d with
    | nil => exact absurd rfl h
    | cons c cs => exact Nat.succ_pos _

theorem lengthPosNeEmpty (s : String) (h : 0 < s.length) : s ≠ "" := by
  intro he
  subst he
  exact Nat.lt_irrefl 0 h

/-- The memory suffix restated through the spec's case split: empty exactly
when the memory trims to nothing, otherwise the fixed separator followed by
the trimmed memory. -/
theorem memorySuffix_eq (um : Option String) :
    memorySuffix um =
      if jsTrim (um.getD "") = "" then "" else "\n\n---\n\n" ++ jsTrim (um.getD "") := by
  cases um with
  | none => rfl
  | some m =>
    show (if m = "" then "" else if 0 < (jsTrim m).length then "\n\n---\n\n" ++ jsTrim m else "")
      = if jsTrim m = "" then "" else "\n\n---\n\n" ++ jsTrim m
    by_cases hm : m = ""
    · subst hm; rfl
    · rw [if_neg hm]
      by_cases ht : jsTrim m = ""
      · rw [if_pos ht, ht]
        simp only [String.length_empty, Nat.lt_irrefl, if_false]
      · rw [if_neg ht, if_pos (strNeEmptyOfLengthPos _ ht)]

/-- The returned string is always the BaseTemplate followed by the memory
suffix, on both the override path and the default-composition path. -/
theorem getCoreSystemPrompt_fst (cfg : Config) (env : Env) (um : Option String) (fs : FS)
    (b : String) (hb : basePromptOf cfg env fs = Option.some b) :
    (getCoreSystemPrompt cfg env um fs).1 = Except.ok (b ++ memorySuffix um) := by
  unfold basePromptOf at hb
  unfold getCoreSystemPrompt
  by_cases hen : (resolveSystemMd cfg env).enabled = true
  · rw [if_pos hen] at hb
    rw [if_pos hen, hb]
  · rw [if_neg hen] at hb
    rw [if_neg hen]
    obtain rfl : defaultBasePrompt env = b := Option.some.inj hb
    rfl

/-- When override resolution leaves the override disabled, `systemMdPath`
is still the default location. -/
theorem overrideDisabledDefaultPath (cfg : Config) (env : Env)
    (h : (resolveSystemMd cfg env).enabled = false) :
    (resolveSystemMd cfg env).path = pathResolve env.cwd (geminiConfigDir env ++ "/system.md") := by
  unfold resolveSystemMd at h ⊢
  cases hc : cfg.geminiSystemMd with
  | none => rfl
  | some v =>
    rw [hc] at h
    dsimp only at h ⊢
    by_cases h0 : v = ""
    · rw [if_pos h0]
    · rw [if_neg h0] at h ⊢
      by_cases h1 : (jsToLowerCase v = "0" || jsToLowerCase v = "false") = true
      · rw [if_pos h1]
      · rw [if_neg h1] at h ⊢
        by_cases h2 : (jsToLowerCase v = "1" || jsToLowerCase v = "true") = true
        · rw [if_pos h2] at h
          exact absurd h (by simp)
        · rw [if_neg h2] at h
          exact absurd h (by simp)

/-- C4: with the override enabled and the resolved override file missing,
`getCoreSystemPrompt` throws the missing-override-file error synchronously,
before producing any output, and the filesystem it returns is the one it
was given — no write-back or other side effect has occurred. -/
theorem missing_override_file_throws_and_leaves_fs_unchanged
    (cfg : Config) (env : Env) (um : Option String) (fs : FS)
    (hen : (resolveSystemMd cfg env).enabled = true)
    (hmiss : fs.files (resolveSystemMd cfg env).path = Option.none) :
    getCoreSystemPrompt cfg env um fs =
      (Except.error (PromptError.missingSystemPromptFile (resolveSystemMd cfg env).path), fs) := by
  unfold getCoreSystemPrompt
  rw [if_pos hen, hmiss]

/-- Witness for C4 at a concrete input: override requested via
`GEMINI_SYSTEM_MD=1`, no file at the default location. -/
theorem missing_override_file_throws_witness :
    getCoreSystemPrompt
        { geminiSystemMd := Option.some "1", geminiWriteSystemMd := Option.none }
        { home := "/home/u", cwd := "/w", sandbox := Option.none, isGitRepo := false }
        Option.none { files := fun _ => Option.none, dirs := [] } =
      (Except.error (PromptError.missingSystemPromptFile "/home/u/.gemini/system.md"),
        { files := fun _ => Option.none, dirs := [] }) := by
  have h := missing_override_file_throws_and_leaves_fs_unchanged
    { geminiSystemMd := Option.some "1", geminiWriteSystemMd := Option.none }
    { home := "/home/u", cwd := "/w", sandbox := Option.none, isGitRepo := false }
    Option.none { files := fun _ => Option.none, dirs := [] } (by decide) rfl
  rw [h]
  have hp : (resolveSystemMd
      { geminiSystemMd := Option.some "1", geminiWriteSystemMd := Option.none }
      { home := "/home/u", cwd := "/w", sandbox := Option.none, isGitRepo := false }).path
      = "/home/u/.gemini/system.md" := by decide
  rw [hp]

/-- C5: for every BaseTemplate (from the override path or from default
composition) and every `userMemory`, the returned string is the
BaseTemplate unchanged when the memory is unset, empty or whitespace-only,
and otherwise the BaseTemplate followed by the fixed separator (blank line,
`---`, blank line) and the memory trimmed of surrounding whitespace. -/
theorem memory_suffix_append
    (cfg : Config) (env : Env) (um : Option String) (fs : FS) (b : String)
    (hb : basePromptOf cfg env fs = Option.some b) :
    (jsTrim (um.getD "") = "" → (getCoreSystemPrompt cfg env um fs).1 = Except.ok b)
    ∧ (jsTrim (um.getD "") ≠ "" →
        (getCoreSystemPrompt cfg env um fs).1 =
          Except.ok (b ++ ("\n\n---\n\n" ++ jsTrim (um.getD "")))) := by
  have hmain := getCoreSystemPrompt_fst cfg env um fs b hb
  constructor
  · intro hws
    rw [hmain, memorySuffix_eq, if_pos hws, strAppendEmpty]
  · intro hws
    rw [hmain, memorySuffix_eq, if_neg hws]

/-- Witness for C5 at a concrete input: no override, memory with
surrounding whitespace; the output is the default template, separator, and
the trimmed memory. -/
theorem memory_suffix_append_witness :
    (getCoreSystemPrompt { geminiSystemMd := Option.none, geminiWriteSystemMd := Option.none }
        { home := "/home/u", cwd := "/w", sandbox := Option.none, isGitRepo := false }
        (Option.some "  remember X  ") { files := fun _ => Option.none, dirs := [] }).1 =
      Except.ok (defaultBasePrompt { home := "/home/u", cwd := "/w", sandbox := Option.none, isGitRepo := false }
        ++ ("\n\n---\n\n" ++ jsTrim ((Option.some "  remember X  ").getD ""))) :=
  (memory_suffix_append
    { geminiSystemMd := Option.none, geminiWriteSystemMd := Option.none }
    { home := "/home/u", cwd := "/w", sandbox := Option.none, isGitRepo := false }
    (Option.some "  remember X  ") { files := fun _ => Option.none, dirs := [] }
    (defaultBasePrompt { home := "/home/u", cwd := "/w", sandbox := Option.none, isGitRepo := false })
    rfl).2 (by decide)

/-- C7: determinism as a dependency property — the returned string is a
function of the configuration values, the environment facts (sandbox kind,
version-control presence, home and working directory) and the override
file's presence and contents at the resolved override path, and of nothing
else in the filesystem; two calls agreeing on those observations return
byte-identical output. -/
theorem output_determined_by_facts
    (cfg : Config) (env : Env) (um : Option String) (fs1 fs2 : FS)
    (h : fs1.files (resolveSystemMd cfg env).path = fs2.files (resolveSystemMd cfg env).path) :
    (getCoreSystemPrompt cfg env um fs1).1 = (getCoreSystemPrompt cfg env um fs2).1 := by
  unfold getCoreSystemPrompt
  by_cases hen : (resolveSystemMd cfg env).enabled = true
  · rw [if_pos hen, if_pos hen, h]
    cases fs2.files (resolveSystemMd cfg env).path <;> rfl
  · rw [if_neg hen, if_neg hen]

/-- Witness for C7 at a concrete input: two filesystems that agree at the
resolved override path (both empty there) but differ elsewhere produce the
same output. -/
theorem output_determined_by_facts_witness :
    (getCoreSystemPrompt { geminiSystemMd := Option.none, geminiWriteSystemMd := Option.none }
        { home := "/home/u", cwd := "/w", sandbox := Option.none, isGitRepo := false }
        Option.none { files := fun _ => Option.none, dirs := [] }).1 =
      (getCoreSystemPrompt { geminiSystemMd := Option.none, geminiWriteSystemMd := Option.none }
        { home := "/home/u", cwd := "/w", sandbox := Option.none, isGitRepo := false }
        Option.none
        { files := fun q => if q = "/other.md" then Option.some "unrelated" else Option.none,
          dirs := ["/somewhere"] }).1 :=
  output_determined_by_facts
    { geminiSystemMd := Option.none, geminiWriteSystemMd := Option.none }
    { home := "/home/u", cwd := "/w", sandbox := Option.none, isGitRepo := false }
    Option.none { files := fun _ => Option.none, dirs := [] }
    { files := fun q => if q = "/other.md" then Option.some "unrelated" else Option.none,
      dirs := ["/somewhere"] } (by decide)

/-- C9: a configuration variable set to the empty string behaves exactly as
an unset variable, for both the override-enable and the write-back-enable
key: the whole observable behaviour of `getCoreSystemPrompt` (output and
filesystem) is identical. -/
theorem empty_env_var_behaves_as_unset (cfg : Config) (env : Env) (um : Option String) (fs : FS) :
    getCoreSystemPrompt { cfg with geminiSystemMd := Option.some "" } env um fs
      = getCoreSystemPrompt { cfg with geminiSystemMd := Option.none } env um fs
    ∧ getCoreSystemPrompt { cfg with geminiWriteSystemMd := Option.some "" } env um fs
      = getCoreSystemPrompt { cfg with geminiWriteSystemMd := Option.none } env um fs := by
  constructor
  · rfl
  · rfl

/-- C6: write-back round-trip — with the override disabled and write-back
enabled to destination `P`, one call leaves at `P` exactly the BaseTemplate
(the default composition) that the returned string extends, truncating any
prior contents of `P` (the filesystem `fs` is arbitrary), the returned
string is that BaseTemplate followed only by the memory suffix, and every
parent directory of `P` has been created. -/
theorem writeback_roundtrip
    (cfg : Config) (env : Env) (um : Option String) (fs : FS) (P : String)
    (hov : (resolveSystemMd cfg env).enabled = false)
    (hwb : writeBackDest cfg env (resolveSystemMd cfg env).path = Option.some P) :
    ((getCoreSystemPrompt cfg env um fs).2).files P = Option.some (defaultBasePrompt env)
    ∧ (getCoreSystemPrompt cfg env um fs).1 =
        Except.ok (defaultBasePrompt env ++ memorySuffix um)
    ∧ ∀ d, d ∈ dirAndAncestors (dirname P) → d ∈ ((getCoreSystemPrompt cfg env um fs).2).dirs := by
  have hne : ¬ ((resolveSystemMd cfg env).enabled = true) := by
    rw [hov]; exact Bool.false_ne_true
  have hfs : (getCoreSystemPrompt cfg env um fs).2
      = FS.writeFile (FS.mkdirp fs (dirname P)) P (defaultBasePrompt env) := by
    unfold getCoreSystemPrompt
    rw [if_neg hne]
    show writeBack cfg env (resolveSystemMd cfg env).path (defaultBasePrompt env) fs = _
    unfold writeBack
    rw [hwb]
  refine ⟨?_, ?_, ?_⟩
  · rw [hfs]
    show (if P = P then Option.some (defaultBasePrompt env) else _) = _
    rw [if_pos rfl]
  · exact getCoreSystemPrompt_fst cfg env um fs (defaultBasePrompt env)
      (by unfold basePromptOf; rw [if_neg hne])
  · intro d hd
    rw [hfs]
    exact List.mem_append_left _ hd

/-- Witness for C6 at a concrete input: `GEMINI_WRITE_SYSTEM_MD=1`, no
override; the default location receives the default base prompt. -/
theorem writeback_roundtrip_witness :
    ((getCoreSystemPrompt { geminiSystemMd := Option.none, geminiWriteSystemMd := Option.some "1" }
        { home := "/home/u", cwd := "/w", sandbox := Option.none, isGitRepo := false }
        Option.none { files := fun _ => Option.none, dirs := [] }).2).files
      "/home/u/.gemini/system.md" =
      Option.some (defaultBasePrompt { home := "/home/u", cwd := "/w", sandbox := Option.none, isGitRepo := false }) :=
  (writeback_roundtrip { geminiSystemMd := Option.none, geminiWriteSystemMd := Option.some "1" }
    { home := "/home/u", cwd := "/w", sandbox := Option.none, isGitRepo := false }
    Option.none { files := fun _ => Option.none, dirs := [] } "/home/u/.gemini/system.md"
    rfl (by decide)).1

/-- C1 (amended): when the override and write-back are both enabled, the
content written to the write-back destination is the in-memory base prompt,
which on the override path is the override file's own contents — not the
default template. -/
theorem writeback_writes_base_prompt
    (cfg : Config) (env : Env) (um : Option String) (fs : FS) (c P : String)
    (hen : (resolveSystemMd cfg env).enabled = true)
    (hfile : fs.files (resolveSystemMd cfg env).path = Option.some c)
    (hwb : writeBackDest cfg env (resolveSystemMd cfg env).path = Option.some P) :
    ((getCoreSystemPrompt cfg env um fs).2).files P = Option.some c := by
  unfold getCoreSystemPrompt
  rw [if_pos hen, hfile]
  show (writeBack cfg env (resolveSystemMd cfg env).path c fs).files P = _
  unfold writeBack
  rw [hwb]
  show (if P = P then Option.some c else _) = _
  rw [if_pos rfl]

/-- Witness for the amended C1 at a concrete input: override file
`/o.md` with contents `# my override`, write-back to `/w.md`; `/w.md`
receives the override's contents. -/
theorem writeback_writes_base_prompt_witness :
    ((getCoreSystemPrompt
        { geminiSystemMd := Option.some "/o.md", geminiWriteSystemMd := Option.some "/w.md" }
        { home := "/home/u", cwd := "/w", sandbox := Option.none, isGitRepo := false }
        Option.none
        { files := fun q => if q = "/o.md" then Option.some "# my override" else Option.none,
          dirs := [] }).2).files "/w.md" = Option.some "# my override" :=
  writeback_writes_base_prompt
    { geminiSystemMd := Option.some "/o.md", geminiWriteSystemMd := Option.some "/w.md" }
    { home := "/home/u", cwd := "/w", sandbox := Option.none, isGitRepo := false }
    Option.none
    { files := fun q => if q = "/o.md" then Option.some "# my override" else Option.none,
      dirs := [] } "# my override" "/w.md" (by decide) (by decide) (by decide)

set_option maxRecDepth 65536 in
/-- Counterexample to C1 as stated: with both the override and write-back
enabled, the content persisted at the write-back path is the override
file's own contents, which differ from the default template composed for
this environment. -/
theorem writeback_persists_override_content :
    ((getCoreSystemPrompt
        { geminiSystemMd := Option.some "/o.md", geminiWriteSystemMd := Option.some "/w.md" }
        { home := "/home/u", cwd := "/w", sandbox := Option.none, isGitRepo := false }
        Option.none
        { files := fun q => if q = "/o.md" then Option.some "# my override" else Option.none,
          dirs := [] }).2).files "/w.md" = Option.some "# my override"
    ∧ "# my override" ≠
        defaultBasePrompt { home := "/home/u", cwd := "/w", sandbox := Option.none, isGitRepo := false } := by
  exact ⟨by decide, by decide⟩

/-- C2 (amended): for every write-back value that lower-cases to `"1"` or
`"true"`, the write-back destination is the current `systemMdPath` — which
is the fixed default location whenever override resolution left the
override disabled, but is the override's resolved custom path when
`GEMINI_SYSTEM_MD` names one; the destination is therefore not independent
of the override variable. -/
theorem writeback_true_targets_systemMdPath
    (cfg : Config) (env : Env) (v : String)
    (hv : cfg.geminiWriteSystemMd = Option.some v)
    (htok : jsToLowerCase v = "1" ∨ jsToLowerCase v = "true") :
    writeBackDest cfg env (resolveSystemMd cfg env).path
        = Option.some (resolveSystemMd cfg env).path
    ∧ ((resolveSystemMd cfg env).enabled = false →
        (resolveSystemMd cfg env).path
          = pathResolve env.cwd (geminiConfigDir env ++ "/system.md")) := by
  constructor
  · unfold writeBackDest
    rw [hv]
    dsimp only
    have hne : ¬ v = "" := by
      intro h0
      subst h0
      rcases htok with h | h <;> exact absurd h (by decide)
    rw [if_neg hne]
    have h1 : ¬ ((jsToLowerCase v = "0" || jsToLowerCase v = "false") = true) := by
      rcases htok with h | h <;> rw [h] <;> decide
    rw [if_neg h1]
    have h2 : (jsToLowerCase v = "1" || jsToLowerCase v = "true") = true := by
      rcases htok with h | h <;> rw [h] <;> decide
    rw [if_pos h2]
  · exact overrideDisabledDefaultPath cfg env

/-- Witness for the amended C2 at a concrete input: `GEMINI_WRITE_SYSTEM_MD`
set to `TRUE` (mixed case) targets the current `systemMdPath`. -/
theorem writeback_true_targets_systemMdPath_witness :
    writeBackDest
        { geminiSystemMd := Option.some "/etc/sys.md", geminiWriteSystemMd := Option.some "TRUE" }
        { home := "/home/u", cwd := "/w", sandbox := Option.none, isGitRepo := false }
        (resolveSystemMd
          { geminiSystemMd := Option.some "/etc/sys.md", geminiWriteSystemMd := Option.some "TRUE" }
          { home := "/home/u", cwd := "/w", sandbox := Option.none, isGitRepo := false }).path
      = Option.some (resolveSystemMd
          { geminiSystemMd := Option.some "/etc/sys.md", geminiWriteSystemMd := Option.some "TRUE" }
          { home := "/home/u", cwd := "/w", sandbox := Option.none, isGitRepo := false }).path :=
  (writeback_true_targets_systemMdPath
    { geminiSystemMd := Option.some "/etc/sys.md", geminiWriteSystemMd := Option.some "TRUE" }
    { home := "/home/u", cwd := "/w", sandbox := Option.none, isGitRepo := false }
    "TRUE" rfl (Or.inr (by decide))).1

/-- Counterexample to C2 as stated: with `GEMINI_SYSTEM_MD=/etc/sys.md` and
`GEMINI_WRITE_SYSTEM_MD=true`, the write-back destination is the override's
custom path `/etc/sys.md`, not the default location, and after the call the
default location has not been written. -/
theorem writeback_default_destination_depends_on_override :
    writeBackDest
        { geminiSystemMd := Option.some "/etc/sys.md", geminiWriteSystemMd := Option.some "true" }
        { home := "/home/u", cwd := "/w", sandbox := Option.none, isGitRepo := false }
        (resolveSystemMd
          { geminiSystemMd := Option.some "/etc/sys.md", geminiWriteSystemMd := Option.some "true" }
          { home := "/home/u", cwd := "/w", sandbox := Option.none, isGitRepo := false }).path
      = Option.some "/etc/sys.md"
    ∧ "/etc/sys.md" ≠
        pathResolve "/w" (geminiConfigDir
          { home := "/home/u", cwd := "/w", sandbox := Option.none, isGitRepo := false } ++ "/system.md")
    ∧ ((getCoreSystemPrompt
          { geminiSystemMd := Option.some "/etc/sys.md", geminiWriteSystemMd := Option.some "true" }
          { home := "/home/u", cwd := "/w", sandbox := Option.none, isGitRepo := false }
          Option.none
          { files := fun q => if q = "/etc/sys.md" then Option.some "override body" else Option.none,
            dirs := [] }).2).files "/home/u/.gemini/system.md" = Option.none := by
  exact ⟨by decide, by decide, by decide⟩

/-- C3 (amended): the sandbox-fragment selection is total and mutually
exclusive, with exactly three pairwise-distinct outcomes keyed to the
sandbox kind — but the `none` kind selects the non-empty
outside-of-sandbox fragment, not the absence of a fragment. -/
theorem sandbox_fragment_selection (env : Env) :
    (sandboxKind env = SandboxKind.namedSandboxA →
        sandboxFragment env = macosSeatbeltFragment)
    ∧ (sandboxKind env = SandboxKind.genericSandbox →
        sandboxFragment env = genericSandboxFragment)
    ∧ (sandboxKind env = SandboxKind.noSandbox →
        sandboxFragment env = outsideOfSandboxFragment)
    ∧ macosSeatbeltFragment ≠ genericSandboxFragment
    ∧ macosSeatbeltFragment ≠ outsideOfSandboxFragment
    ∧ genericSandboxFragment ≠ outsideOfSandboxFragment
    ∧ outsideOfSandboxFragment ≠ "" := by
  have key : sandboxFragment env =
      (match sandboxKind env with
       | SandboxKind.namedSandboxA => macosSeatbeltFragment
       | SandboxKind.genericSandbox => genericSandboxFragment
       | SandboxKind.noSandbox => outsideOfSandboxFragment) := by
    unfold sandboxFragment sandboxKind
    dsimp only
    by_cases hA : (env.sandbox == Option.some "sandbox-exec") = true
    · rw [if_pos hA, if_pos hA]
    · rw [if_neg hA, if_neg hA]
      by_cases hG : isTruthy env.sandbox = true
      · rw [if_pos hG, if_pos hG]
      · rw [if_neg hG, if_neg hG]
  refine ⟨?_, ?_, ?_, by decide, by decide, by decide, by decide⟩ <;>
    · intro h
      rw [key, h]

/-- Witness for the amended C3 at concrete inputs: with `SANDBOX` unset the
outside-of-sandbox fragment is selected; with `SANDBOX=sandbox-exec` the
Seatbelt fragment is selected. -/
theorem sandbox_fragment_selection_witness :
    sandboxFragment { home := "/h", cwd := "/w", sandbox := Option.none, isGitRepo := false }
      = outsideOfSandboxFragment
    ∧ sandboxFragment
        { home := "/h", cwd := "/w", sandbox := Option.some "sandbox-exec", isGitRepo := false }
      = macosSeatbeltFragment :=
  ⟨(sandbox_fragment_selection
      { home := "/h", cwd := "/w", sandbox := Option.none, isGitRepo := false }).2.2.1 (by decide),
   (sandbox_fragment_selection
      { home := "/h", cwd := "/w", sandbox := Option.some "sandbox-exec", isGitRepo := false }).1
     (by decide)⟩

/-- Counterexample to C3 as stated: for an environment of sandbox kind
`none` the selection does not omit the sandbox fragment — it contributes
the non-empty outside-of-sandbox text. -/
theorem sandbox_none_includes_nonempty_fragment :
    sandboxKind { home := "/home/u", cwd := "/w", sandbox := Option.none, isGitRepo := false }
      = SandboxKind.noSandbox
    ∧ sandboxFragment { home := "/home/u", cwd := "/w", sandbox := Option.none, isGitRepo := false }
      ≠ ""
    ∧ sandboxFragment { home := "/home/u", cwd := "/w", sandbox := Option.none, isGitRepo := false }
      = outsideOfSandboxFragment := by
  exact ⟨rfl, by decide, rfl⟩

/-- C8: for the override value `"~/custom.md"` the resolved override path
is `<home>/custom.md` — the leading `~/` is expanded against the home
directory before resolution; the only assumption is that
`<home>/custom.md` is itself an already-normalized absolute path (true of
any genuine home directory). -/
theorem tilde_slash_expands_to_home
    (cfg : Config) (env : Env)
    (hv : cfg.geminiSystemMd = Option.some "~/custom.md")
    (habs : isAbsolutePath (env.home ++ "/custom.md") = true)
    (hnorm : normalizeAbs (env.home ++ "/custom.md") = env.home ++ "/custom.md") :
    (resolveSystemMd cfg env).path = env.home ++ "/custom.md" := by
  unfold resolveSystemMd
  rw [hv]
  dsimp only
  rw [if_neg (by decide : ¬ ("~/custom.md" = "")),
    if_neg (by decide :
      ¬ ((jsToLowerCase "~/custom.md" = "0" || jsToLowerCase "~/custom.md" = "false") = true)),
    if_neg (by decide :
      ¬ ((jsToLowerCase "~/custom.md" = "1" || jsToLowerCase "~/custom.md" = "true") = true))]
  show pathResolve env.cwd (expandHome env "~/custom.md") = _
  unfold expandHome
  rw [if_pos (by decide : strStartsWith "~/custom.md" "~/" = true)]
  have hs : jsSlice "~/custom.md" 2 = "custom.md" := by decide
  rw [hs, strAppendAssoc]
  have hlit : ("/" : String) ++ "custom.md" = "/custom.md" := by decide
  rw [hlit]
  unfold pathResolve
  rw [if_pos habs, hnorm]

/-- Witness for C8 at a concrete input: home `/home/user` gives
`/home/user/custom.md`. -/
theorem tilde_slash_expands_to_home_witness :
    (resolveSystemMd { geminiSystemMd := Option.some "~/custom.md", geminiWriteSystemMd := Option.none }
        { home := "/home/user", cwd := "/w", sandbox := Option.none, isGitRepo := false }).path
      = "/home/user" ++ "/custom.md" :=
  tilde_slash_expands_to_home
    { geminiSystemMd := Option.some "~/custom.md", geminiWriteSystemMd := Option.none }
    { home := "/home/user", cwd := "/w", sandbox := Option.none, isGitRepo := false }
    rfl (by decide) (by decide)

/-- A string whose character data is `c :: l` differs from any string
whose data does not begin with `c`. -/
theorem consDataNe (c : Char) (l : List Char) (t : String)
    (hne : t.data.head? ≠ Option.some c) : String.mk (c :: l) ≠ t := by
  intro he
  exact hne (congrArg (fun s => s.data.head?) he).symm

/-- A configuration value that starts with the shorthand character `~` has
`'~'` as its first character. -/
theorem startsWithTildeData (v : String) (h : strStartsWith v "~" = true) :
    ∃ l, v.data = '~' :: l := by
  unfold strStartsWith at h
  cases hv' : v.data with
  | nil =>
    rw [hv'] at h
    exact absurd h (by decide)
  | cons c cs =>
    rw [hv'] at h
    have h2 : ('~' == c && List.isPrefixOf ([] : List Char) cs) = true := h
    have h3 : ('~' == c) = true := by
      cases hb : ('~' == c) with
      | false => rw [hb] at h2; simp at h2
      | true => rfl
    refine ⟨cs, ?_⟩
    rw [← eq_of_beq h3]

/-- A value whose first character is `~` is non-empty, lower-cases to a
string that is none of the four enable/disable tokens, and is not an
absolute path — so in `resolveSystemMd` it always reaches the custom-path
branch. -/
theorem tildeValueFacts (v : String) (l : List Char) (hd : v.data = '~' :: l) :
    v ≠ ""
    ∧ jsToLowerCase v ≠ "0" ∧ jsToLowerCase v ≠ "false"
    ∧ jsToLowerCase v ≠ "1" ∧ jsToLowerCase v ≠ "true"
    ∧ isAbsolutePath v = false := by
  have hveq : v = String.mk ('~' :: l) := String.ext hd
  have hlow : jsToLowerCase v = String.mk ('~' :: l.map Char.toLower) := by
    unfold jsToLowerCase
    rw [hd, List.map_cons]
    have hc : Char.toLower '~' = '~' := by decide
    rw [hc]
  refine ⟨?_, ?_, ?_, ?_, ?_, ?_⟩
  · rw [hveq]
    exact consDataNe '~' l "" (by decide)
  · rw [hlow]
    exact consDataNe '~' _ "0" (by decide)
  · rw [hlow]
    exact consDataNe '~' _ "false" (by decide)
  · rw [hlow]
    exact consDataNe '~' _ "1" (by decide)
  · rw [hlow]
    exact consDataNe '~' _ "true" (by decide)
  · unfold isAbsolutePath
    rw [hd]
    rfl

/-- C10: every configuration value that begins with `~` but is neither
exactly `~` nor prefixed by `~/` receives no home-directory expansion: the
expansion step leaves it unchanged and it is resolved as a literal path
against the process working directory (`path.resolve(cwd, value)`, which
on such a relative value is the normalization of `cwd ++ "/" ++ value`),
while a value of exactly `~` resolves to the home directory itself (the
only assumption being that the home directory is a normalized absolute
path). -/
theorem tilde_prefix_not_expanded
    (cfg cfg2 : Config) (env : Env) (v : String)
    (hv : cfg.geminiSystemMd = Option.some v)
    (hts : strStartsWith v "~" = true)
    (hns : strStartsWith v "~/" = false)
    (hne : v ≠ "~")
    (hv2 : cfg2.geminiSystemMd = Option.some "~")
    (hhabs : isAbsolutePath env.home = true)
    (hhnorm : normalizeAbs env.home = env.home) :
    expandHome env v = v
    ∧ (resolveSystemMd cfg env).path = pathResolve env.cwd v
    ∧ pathResolve env.cwd v = normalizeAbs (env.cwd ++ "/" ++ v)
    ∧ (resolveSystemMd cfg2 env).path = env.home := by
  obtain ⟨l, hd⟩ := startsWithTildeData v hts
  obtain ⟨hvne, hne0, hnef, hne1, hnet, habs⟩ := tildeValueFacts v l hd
  have hexp : expandHome env v = v := by
    unfold expandHome
    rw [if_neg (by rw [hns]; exact Bool.false_ne_true), if_neg hne]
  have hcond1 : ¬ ((jsToLowerCase v = "0" || jsToLowerCase v = "false") = true) := by
    intro hx
    simp only [Bool.or_eq_true, decide_eq_true_eq] at hx
    rcases hx with hx | hx
    · exact hne0 hx
    · exact hnef hx
  have hcond2 : ¬ ((jsToLowerCase v = "1" || jsToLowerCase v = "true") = true) := by
    intro hx
    simp only [Bool.or_eq_true, decide_eq_true_eq] at hx
    rcases hx with hx | hx
    · exact hne1 hx
    · exact hnet hx
  refine ⟨hexp, ?_, ?_, ?_⟩
  · unfold resolveSystemMd
    rw [hv]
    dsimp only
    rw [if_neg hvne, if_neg hcond1, if_neg hcond2]
    show pathResolve env.cwd (expandHome env v) = _
    rw [hexp]
  · unfold pathResolve
    rw [if_neg (by rw [habs]; exact Bool.false_ne_true)]
  · unfold resolveSystemMd
    rw [hv2]
    dsimp only
    rw [if_neg (by decide : ¬ ("~" = "")),
      if_neg (by decide :
        ¬ ((jsToLowerCase "~" = "0" || jsToLowerCase "~" = "false") = true)),
      if_neg (by decide :
        ¬ ((jsToLowerCase "~" = "1" || jsToLowerCase "~" = "true") = true))]
    show pathResolve env.cwd (expandHome env "~") = _
    have hexp2 : expandHome env "~" = env.home := by
      unfold expandHome
      rw [if_neg (by decide : ¬ (strStartsWith "~" "~/" = true)), if_pos rfl]
    rw [hexp2]
    unfold pathResolve
    rw [if_pos hhabs, hhnorm]

/-- Witness for C10 at a concrete input: `~custom.md` is left unexpanded
and resolves under the working directory `/w`, and `~` resolves to the
home directory. -/
theorem tilde_prefix_not_expanded_witness :
    expandHome { home := "/home/user", cwd := "/w", sandbox := Option.none, isGitRepo := false }
        "~custom.md" = "~custom.md"
    ∧ (resolveSystemMd { geminiSystemMd := Option.some "~custom.md", geminiWriteSystemMd := Option.none }
        { home := "/home/user", cwd := "/w", sandbox := Option.none, isGitRepo := false }).path
      = pathResolve "/w" "~custom.md"
    ∧ pathResolve "/w" "~custom.md" = normalizeAbs ("/w" ++ "/" ++ "~custom.md")
    ∧ (resolveSystemMd { geminiSystemMd := Option.some "~", geminiWriteSystemMd := Option.none }
        { home := "/home/user", cwd := "/w", sandbox := Option.none, isGitRepo := false }).path
      = "/home/user" :=
  tilde_prefix_not_expanded
    { geminiSystemMd := Option.some "~custom.md", geminiWriteSystemMd := Option.none }
    { geminiSystemMd := Option.some "~", geminiWriteSystemMd := Option.none }
    { home := "/home/user", cwd := "/w", sandbox := Option.none, isGitRepo := false }
    "~custom.md" rfl (by decide) (by decide) (by decide) rfl (by decide) (by decide)

example : pathResolve "/cwd" "/a//b/../c/./d/" = "/a/c/d" := by decide

example : pathResolve "/cwd" "x/y.md" = "/cwd/x/y.md" := by decide

example : (resolveSystemMd { geminiSystemMd := Option.some "~/custom.md", geminiWriteSystemMd := Option.none }
    { home := "/home/user", cwd := "/w", sandbox := Option.none, isGitRepo := false }).path
    = "/home/user/custom.md" := by decide

example : dirname "/home/u/.gemini/system.md" = "/home/u/.gemini" := by decide

example : dirAndAncestors "/home/u/.gemini" = ["/", "/home", "/home/u", "/home/u/.gemini"] := by decide

example : jsTrim "  remember X  " = "remember X" := by decide

example : memorySuffix (Option.some "   ") = "" := by decide

example : (resolveSystemMd { geminiSystemMd := Option.some "~foo", geminiWriteSystemMd := Option.none }
    { home := "/home/user", cwd := "/w", sandbox := Option.none, isGitRepo := false }).path
    = "/w/~foo" := by decide

example : (resolveSystemMd { geminiSystemMd := Option.some "~a/b.md", geminiWriteSystemMd := Option.none }
    { home := "/home/user", cwd := "/w", sandbox := Option.none, isGitRepo := false }).path
    = "/w/~a/b.md" := by decide
